import Mathlib

/-!
Verification of the Trailer House Inquiry Form backend (src/app.py).

The backend is a single Flask module.  We embed the pure decision logic of
its functions:

* load_credentials   (app.py lines 179-207)
* check_credentials  (app.py lines 128-177, endpoint GET /check-creds)
* save_to_google_sheets (app.py lines 209-315)
* submit_form        (app.py lines 317-382, endpoint POST /submit)

External effects are modelled explicitly:

* The credential file on disk is a FileState: absent, present but
  unreadable / not valid JSON (the Python code catches every exception from
  open and json.load in one handler, so the two are indistinguishable to
  every caller), or present and parsed into a key/value record.
* The remote spreadsheet API is a RemoteApi: either some step of the remote
  interaction (building the credential object, authorising, opening the
  sheet by key, selecting sheet1, reading row 1) raises, carrying the
  exception message, or the worksheet is reachable with its current rows
  and the two append_row calls succeed.

Python dictionaries become association lists keyed by String; Python "falsy"
on form values (empty string, empty list) is made explicit.  Every embedded
function is a total Lean function; a Python "return None" becomes Option,
and the fact that a function catches all exceptions and returns False is
reflected by its Lean counterpart being total with result type Bool.
-/

/-- A value submitted in a form field: a string, or a list of strings for a
multi-select field (the code checks isinstance(value, list)). -/
inductive FormValue where
  | s (v : String)
  | l (v : List String)
deriving DecidableEq, Repr

/-- Python truthiness test used by the validation loop: the empty string and
the empty list are falsy, everything else is truthy. -/
def FormValue.falsy : FormValue → Bool
  | .s v => v == ""
  | .l v => v.isEmpty

/-- The parsed request body: field name to submitted value. -/
def FormData := List (String × FormValue)

/-- data.get(field) in Python: first binding of the key, if any. -/
def dataGet (d : FormData) (k : String) : Option FormValue :=
  match d.find? (fun p => p.1 == k) with
  | some p => some p.2
  | none => none

/-- data.get(field, the empty string) in Python. -/
def dataGetD (d : FormData) (k : String) : FormValue :=
  (dataGet d k).getD (FormValue.s "")

/-- State of the credential file at CREDENTIALS_FILE_PATH as the code can
observe it.  badJson covers a file that exists but whose read or JSON parse
raises (the code handles both in a single except clause). -/
inductive FileState where
  | missing
  | badJson
  | parsed (creds : List (String × String))
deriving DecidableEq, Repr

/-- Membership test: key in creds (Python dict containment). -/
def credsHasKey (creds : List (String × String)) (k : String) : Bool :=
  creds.any (fun p => p.1 == k)

/-- creds.get(key, default) in Python. -/
def credsGetD (creds : List (String × String)) (k d : String) : String :=
  match creds.find? (fun p => p.1 == k) with
  | some p => p.2
  | none => d

/-- The list named required in load_credentials (app.py line 195). -/
def requiredCredFields : List String :=
  ["type", "project_id", "private_key_id", "private_key", "client_email"]

/-- load_credentials (app.py lines 179-207): None when the file is missing,
when reading or parsing raises, or when any of the five required keys is
absent; otherwise the parsed record. -/
def load_credentials (fs : FileState) : Option (List (String × String)) :=
  match fs with
  | .missing => none
  | .badJson => none
  | .parsed creds =>
    let missing := requiredCredFields.filter (fun k => !(credsHasKey creds k))
    if missing.isEmpty then some creds else none

/-- Observable part of a GET /check-creds response. -/
structure CheckCredsResult where
  httpStatus : Nat
  statusField : String
  service_account : Option String
deriving DecidableEq, Repr

/-- check_credentials (app.py lines 128-177): 404 when the file is missing,
500 when reading or parsing raises, 200 with the client_email field (empty
string default) when the file parses as JSON. -/
def check_credentials (fs : FileState) : CheckCredsResult :=
  match fs with
  | .missing => ⟨404, "error", none⟩
  | .badJson => ⟨500, "error", none⟩
  | .parsed creds => ⟨200, "success", some (credsGetD creds "client_email" "")⟩

/-- Behaviour of the remote spreadsheet API for one save attempt.  On error,
one of the remote steps up to reading row 1 raises with the given message;
on ok, the first worksheet is reachable with the given rows and appends
succeed. -/
inductive RemoteApi where
  | error (msg : String)
  | ok (rows : List (List FormValue))
deriving DecidableEq, Repr

/-- Process environment for the sheets code: the import-success flag
SHEETS_AVAILABLE, the GOOGLE_SHEET_KEY environment variable (empty string
when unset), the credential file, and the remote API behaviour. -/
structure SheetsEnv where
  sheetsAvailable : Bool
  sheetKey : String
  fileState : FileState
  remote : RemoteApi
deriving DecidableEq, Repr

/-- The headers list (app.py lines 257-266) written when row 1 is empty. -/
def headerRow : List FormValue :=
  [FormValue.s "Timestamp", FormValue.s "相談方法", FormValue.s "相談種類",
   FormValue.s "名前", FormValue.s "ふりがな", FormValue.s "メールアドレス",
   FormValue.s "電話番号", FormValue.s "ご相談内容"]

/-- The isinstance(consultation_type, list) join (app.py lines 271-273):
a list value is joined with a comma and space, everything else unchanged. -/
def joinConsultationType : FormValue → FormValue
  | .l xs => FormValue.s (String.intercalate ", " xs)
  | v => v

/-- The row list built in save_to_google_sheets (app.py lines 275-284); ts
is the formatted current time. -/
def buildRow (ts : String) (d : FormData) : List FormValue :=
  [FormValue.s ts,
   dataGetD d "consultation_method",
   joinConsultationType (dataGetD d "consultation_type"),
   dataGetD d "name",
   dataGetD d "furigana",
   dataGetD d "email",
   dataGetD d "phone",
   dataGetD d "content"]

/-- Result of save_to_google_sheets: the returned boolean, whether the
remote API section was reached (credential loading succeeded and the code
went on to build a session and open the sheet), and the worksheet rows
after the call when the remote interaction succeeded. -/
structure SaveResult where
  success : Bool
  contacted : Bool
  finalRows : Option (List (List FormValue))
deriving DecidableEq, Repr

/-- save_to_google_sheets (app.py lines 209-315): short-circuits to false
when the gspread import failed or GOOGLE_SHEET_KEY is unset, returns false
when load_credentials fails, returns false when any remote step raises
(the catch-all except at lines 295-315), and otherwise writes the header
row when row 1 is empty, appends the data row, and returns true. -/
def save_to_google_sheets (env : SheetsEnv) (ts : String) (data : FormData) :
    SaveResult :=
  if env.sheetsAvailable = false then ⟨false, false, none⟩
  else if env.sheetKey = "" then ⟨false, false, none⟩
  else
    match load_credentials env.fileState with
    | none => ⟨false, false, none⟩
    | some _ =>
      match env.remote with
      | .error _ => ⟨false, true, none⟩
      | .ok rows =>
        let withHeader :=
          if (rows.headD []).isEmpty then rows ++ [headerRow] else rows
        ⟨true, true, some (withHeader ++ [buildRow ts data])⟩

/-- The required_fields list in submit_form (app.py line 338). -/
def required_fields : List String :=
  ["name", "email", "phone", "content"]

/-- The per-field test of the validation loop (app.py line 342): Python
not data.get(field), true when the field is absent or its value is falsy. -/
def fieldMissing (d : FormData) (f : String) : Bool :=
  match dataGet d f with
  | none => true
  | some v => v.falsy

/-- The validation loop of submit_form (app.py lines 339-343): collect, in
order, every required field whose value is missing or falsy. -/
def missingFields (d : FormData) : List String :=
  required_fields.filter (fun f => fieldMissing d f)

/-- Observable part of a POST /submit response: HTTP status, the success
flag, and the fields that are present only in one of the two response
shapes (missing_fields on the 400 response; sheets_saved and form_data on
the 200 response).  saveAttempted records whether save_to_google_sheets
was called during the request. -/
structure SubmitResult where
  status : Nat
  success : Bool
  missing_fields : Option (List String)
  sheets_saved : Option Bool
  form_data : Option (List (String × FormValue))
  saveAttempted : Bool
deriving DecidableEq, Repr

/-- submit_form (app.py lines 317-382), non-OPTIONS path with a parsed
body: validate the four required fields; on failure return 400 with the
missing list and never touch the sheets code; on success call
save_to_google_sheets only when GOOGLE_SHEET_KEY is set and the library is
available, and return 200 echoing name, email and phone. -/
def submit_form (env : SheetsEnv) (ts : String) (data : FormData) :
    SubmitResult :=
  let missing := missingFields data
  if missing.isEmpty = false then
    ⟨400, false, some missing, none, none, false⟩
  else
    let configured := (env.sheetKey != "") && env.sheetsAvailable
    let sheets_success :=
      if configured then (save_to_google_sheets env ts data).success else false
    ⟨200, true, none, some sheets_success,
     some [("name", dataGetD data "name"),
           ("email", dataGetD data "email"),
           ("phone", dataGetD data "phone")],
     configured⟩

/-! Concrete sample inputs used to instantiate the theorems below. -/

/-- A well-formed submission: all four required fields present, non-empty. -/
def demoData : FormData :=
  [("name", FormValue.s "Taro"), ("email", FormValue.s "a@b.com"),
   ("phone", FormValue.s "090"), ("content", FormValue.s "hello")]

/-- A submission whose name field is present but empty (falsy). -/
def demoBadData : FormData :=
  [("name", FormValue.s ""), ("email", FormValue.s "a@b.com"),
   ("phone", FormValue.s "090"), ("content", FormValue.s "x")]

/-- A complete service-account credential record. -/
def demoCreds : List (String × String) :=
  [("type", "service_account"), ("project_id", "p"),
   ("private_key_id", "kid"), ("private_key", "key"),
   ("client_email", "sa@p.iam")]

/-- Environment in which every precondition of a sheet write holds. -/
def demoEnvOk : SheetsEnv :=
  ⟨true, "KEY1", FileState.parsed demoCreds, RemoteApi.ok []⟩

/-- Environment in which the remote API raises a permission error. -/
def demoEnvErr : SheetsEnv :=
  ⟨true, "KEY1", FileState.parsed demoCreds, RemoteApi.error "PERMISSION_DENIED"⟩

/-- Environment with no sheets library, no key, no credential file. -/
def demoEnvOff : SheetsEnv :=
  ⟨false, "", FileState.missing, RemoteApi.error "x"⟩

/-- C1: a submission with a missing or falsy required field gets HTTP 400
with success false, a missing_fields list holding exactly the missing
required field names, and save_to_google_sheets is never called. -/
theorem submit_form_rejects_missing (env : SheetsEnv) (ts : String)
    (data : FormData) (h : missingFields data ≠ []) :
    (submit_form env ts data).status = 400 ∧
    (submit_form env ts data).success = false ∧
    (submit_form env ts data).missing_fields = some (missingFields data) ∧
    (∀ f, f ∈ missingFields data ↔
      f ∈ required_fields ∧ fieldMissing data f = true) ∧
    (submit_form env ts data).saveAttempted = false := by
  have hne : (missingFields data).isEmpty = false := by
    cases hm : missingFields data with
    | nil => exact absurd hm h
    | cons a l => rfl
  refine ⟨?_, ?_, ?_, ?_, ?_⟩
  · simp [submit_form, hne, h]
  · simp [submit_form, hne, h]
  · simp [submit_form, hne, h]
  · intro f
    simp [missingFields, List.mem_filter]
  · simp [submit_form, hne, h]

/-- C1 witness at a concrete rejected submission. -/
theorem submit_form_rejects_missing_witness :
    (submit_form demoEnvOff "t" demoBadData).status = 400 ∧
    (submit_form demoEnvOff "t" demoBadData).success = false ∧
    (submit_form demoEnvOff "t" demoBadData).missing_fields =
      some (missingFields demoBadData) ∧
    (∀ f, f ∈ missingFields demoBadData ↔
      f ∈ required_fields ∧ fieldMissing demoBadData f = true) ∧
    (submit_form demoEnvOff "t" demoBadData).saveAttempted = false :=
  submit_form_rejects_missing demoEnvOff "t" demoBadData (by decide)

/-- C2: a submission with all four required fields present and non-falsy
gets HTTP 200 with success true in every environment; the boolean outcome
of the sheet write is recorded in sheets_saved and the status does not
depend on it. -/
theorem submit_form_accepts (env : SheetsEnv) (ts : String) (data : FormData)
    (h : missingFields data = []) :
    (submit_form env ts data).status = 200 ∧
    (submit_form env ts data).success = true ∧
    (submit_form env ts data).sheets_saved =
      some (if (env.sheetKey != "") && env.sheetsAvailable
            then (save_to_google_sheets env ts data).success else false) := by
  refine ⟨?_, ?_, ?_⟩ <;> simp [submit_form, h]

/-- C2 witness: the same well-formed submission is accepted both when the
sheet write fails remotely and when nothing is configured. -/
theorem submit_form_accepts_witness :
    (submit_form demoEnvErr "t" demoData).status = 200 ∧
    (submit_form demoEnvErr "t" demoData).success = true ∧
    (submit_form demoEnvErr "t" demoData).sheets_saved =
      some (if (demoEnvErr.sheetKey != "") && demoEnvErr.sheetsAvailable
            then (save_to_google_sheets demoEnvErr "t" demoData).success
            else false) :=
  submit_form_accepts demoEnvErr "t" demoData (by decide)

/-- C3: whenever any step of the remote spreadsheet interaction raises,
save_to_google_sheets returns false; the embedded function is total, so no
exception reaches the caller. -/
theorem save_returns_false_on_remote_error (env : SheetsEnv) (ts : String)
    (data : FormData) (msg : String)
    (h : env.remote = RemoteApi.error msg) :
    (save_to_google_sheets env ts data).success = false := by
  rcases env with ⟨avail, key, fs, remote⟩
  simp only at h
  subst h
  cases avail with
  | false => simp [save_to_google_sheets]
  | true =>
    by_cases hk : key = "" <;>
      cases hc : load_credentials fs <;>
        simp [save_to_google_sheets, hk, hc]

/-- C3 witness: a permission-denied remote failure yields false. -/
theorem save_returns_false_on_remote_error_witness :
    (save_to_google_sheets demoEnvErr "t" demoData).success = false :=
  save_returns_false_on_remote_error demoEnvErr "t" demoData
    "PERMISSION_DENIED" (by decide)

/-- Helper: a parsed credential record missing client_email fails to load,
since client_email survives the filter over the required key list. -/
theorem load_credentials_none_of_no_email (creds : List (String × String))
    (hk : credsHasKey creds "client_email" = false) :
    load_credentials (FileState.parsed creds) = none := by
  have hm : "client_email" ∈
      requiredCredFields.filter (fun k => !(credsHasKey creds k)) := by
    refine List.mem_filter.mpr ⟨?_, ?_⟩
    · simp [requiredCredFields]
    · simp [hk]
  have hne : (requiredCredFields.filter
      (fun k => !(credsHasKey creds k))).isEmpty = false := by
    cases hf : requiredCredFields.filter (fun k => !(credsHasKey creds k)) with
    | nil => rw [hf] at hm; exact absurd hm (List.not_mem_nil _)
    | cons a l => rfl
  simp [load_credentials, hne]

/-- C4: save_to_google_sheets returns false without reaching the remote
API section when the library is unavailable or the sheet key is unset, and
returns false whenever credential loading fails, in particular when the
file is absent or lacks the client_email key. -/
theorem save_short_circuits (env : SheetsEnv) (ts : String) (data : FormData) :
    ((env.sheetsAvailable = false ∨ env.sheetKey = "") →
      (save_to_google_sheets env ts data).success = false ∧
      (save_to_google_sheets env ts data).contacted = false) ∧
    (load_credentials env.fileState = none →
      (save_to_google_sheets env ts data).success = false) ∧
    (env.fileState = FileState.missing →
      (save_to_google_sheets env ts data).success = false) ∧
    (∀ creds, env.fileState = FileState.parsed creds →
      credsHasKey creds "client_email" = false →
      (save_to_google_sheets env ts data).success = false) := by
  refine ⟨?_, ?_, ?_, ?_⟩
  · rintro (ha | hk)
    · constructor <;> simp [save_to_google_sheets, ha]
    · constructor <;>
        cases h : env.sheetsAvailable <;> simp [save_to_google_sheets, hk, h]
  · intro hc
    cases h : env.sheetsAvailable <;>
      by_cases hk : env.sheetKey = "" <;>
        simp [save_to_google_sheets, h, hk, hc]
  · intro hf
    have hc : load_credentials env.fileState = none := by
      rw [hf]; rfl
    cases h : env.sheetsAvailable <;>
      by_cases hk : env.sheetKey = "" <;>
        simp [save_to_google_sheets, h, hk, hc]
  · intro creds hf he
    have hc : load_credentials env.fileState = none := by
      rw [hf]; exact load_credentials_none_of_no_email creds he
    cases h : env.sheetsAvailable <;>
      by_cases hk : env.sheetKey = "" <;>
        simp [save_to_google_sheets, h, hk, hc]

/-- C4 witness: credential record lacking client_email. -/
theorem save_short_circuits_witness :
    (save_to_google_sheets
      ⟨true, "KEY1",
       FileState.parsed [("type", "service_account"), ("project_id", "p"),
                         ("private_key_id", "kid"), ("private_key", "key")],
       RemoteApi.ok []⟩ "t" demoData).success = false :=
  (save_short_circuits
    ⟨true, "KEY1",
     FileState.parsed [("type", "service_account"), ("project_id", "p"),
                       ("private_key_id", "kid"), ("private_key", "key")],
     RemoteApi.ok []⟩ "t" demoData).2.2.2
    [("type", "service_account"), ("project_id", "p"),
     ("private_key_id", "kid"), ("private_key", "key")] rfl (by decide)

/-- C5: load_credentials yields the absent value exactly when the file is
missing, unreadable or not valid JSON, or some required key is absent; on
a parsed record holding all five keys it returns that record. -/
theorem load_credentials_spec (fs : FileState) :
    (load_credentials fs = none ↔
      fs = FileState.missing ∨ fs = FileState.badJson ∨
      ∃ creds, fs = FileState.parsed creds ∧
        ∃ k, k ∈ requiredCredFields ∧ credsHasKey creds k = false) ∧
    (∀ creds, fs = FileState.parsed creds →
      (∀ k, k ∈ requiredCredFields → credsHasKey creds k = true) →
      load_credentials fs = some creds) := by
  cases fs with
  | missing =>
    refine ⟨⟨fun _ => Or.inl rfl, fun _ => rfl⟩, ?_⟩
    intro creds hf
    exact absurd hf (by simp)
  | badJson =>
    refine ⟨⟨fun _ => Or.inr (Or.inl rfl), fun _ => rfl⟩, ?_⟩
    intro creds hf
    exact absurd hf (by simp)
  | parsed creds =>
    constructor
    · constructor
      · intro hn
        refine Or.inr (Or.inr ⟨creds, rfl, ?_⟩)
        by_cases he : (requiredCredFields.filter
            (fun k => !(credsHasKey creds k))).isEmpty = true
        · exact absurd hn (by simp [load_credentials, he])
        · rcases hk : requiredCredFields.filter
              (fun k => !(credsHasKey creds k)) with _ | ⟨a, l⟩
          · exact absurd (by rw [hk]; rfl) he
          · have ha : a ∈ requiredCredFields.filter
                (fun k => !(credsHasKey creds k)) := by
              rw [hk]; exact List.mem_cons_self a l
            rcases List.mem_filter.mp ha with ⟨hmem, hp⟩
            exact ⟨a, hmem, by simpa using hp⟩
      · rintro (hf | hf | ⟨c, hc, k, hk, hke⟩)
        · exact absurd hf (by simp)
        · exact absurd hf (by simp)
        · injection hc with hcc
          subst hcc
          have hm : k ∈ requiredCredFields.filter
              (fun j => !(credsHasKey creds j)) :=
            List.mem_filter.mpr ⟨hk, by simp [hke]⟩
          have hne : (requiredCredFields.filter
              (fun j => !(credsHasKey creds j))).isEmpty = false := by
            cases hf2 : requiredCredFields.filter
                (fun j => !(credsHasKey creds j)) with
            | nil => rw [hf2] at hm; exact absurd hm (List.not_mem_nil _)
            | cons a l => rfl
          simp [load_credentials, hne]
    · intro c hc hall
      injection hc with hcc
      subst hcc
      have he : (requiredCredFields.filter
          (fun j => !(credsHasKey creds j))) = [] := by
        refine List.filter_eq_nil_iff.mpr ?_
        intro k hk
        simp [hall k hk]
      simp [load_credentials, he]

/-- C5 witness: a complete record loads as itself. -/
theorem load_credentials_spec_witness :
    load_credentials (FileState.parsed demoCreds) = some demoCreds :=
  (load_credentials_spec (FileState.parsed demoCreds)).2 demoCreds rfl
    (by decide)

/-- C6: when a write goes through, the row appended to the worksheet is, in
this fixed order: timestamp, consultation method, consultation type (joined
with a comma when the submitted value is a list), name, furigana, email,
phone, content — eight entries, each read from the submission with the
empty string as default. -/
theorem save_appends_fixed_row (env : SheetsEnv) (ts : String)
    (data : FormData) (rows : List (List FormValue))
    (creds : List (String × String))
    (hA : env.sheetsAvailable = true) (hK : env.sheetKey ≠ "")
    (hC : load_credentials env.fileState = some creds)
    (hR : env.remote = RemoteApi.ok rows) :
    (∃ final, (save_to_google_sheets env ts data).finalRows = some final ∧
      final.getLast? = some (buildRow ts data)) ∧
    buildRow ts data =
      [FormValue.s ts,
       dataGetD data "consultation_method",
       joinConsultationType (dataGetD data "consultation_type"),
       dataGetD data "name",
       dataGetD data "furigana",
       dataGetD data "email",
       dataGetD data "phone",
       dataGetD data "content"] ∧
    (buildRow ts data).length = 8 ∧
    (∀ xs, dataGet data "consultation_type" = some (FormValue.l xs) →
      (buildRow ts data).get? 2 =
        some (FormValue.s (String.intercalate ", " xs))) := by
  refine ⟨?_, rfl, rfl, ?_⟩
  · refine ⟨(if (rows.headD []).isEmpty then rows ++ [headerRow] else rows)
      ++ [buildRow ts data], ?_, ?_⟩
    · simp [save_to_google_sheets, hA, hK, hC, hR]
    · exact List.getLast?_concat _
  · intro xs hx
    simp [buildRow, dataGetD, hx, joinConsultationType]

/-- C6 witness at a concrete validated submission with a multi-select
consultation type. -/
theorem save_appends_fixed_row_witness :
    (∃ final,
      (save_to_google_sheets demoEnvOk "2024-01-01 00:00:00"
        (("consultation_type", FormValue.l ["A", "B"]) :: demoData)).finalRows
        = some final ∧
      final.getLast? = some (buildRow "2024-01-01 00:00:00"
        (("consultation_type", FormValue.l ["A", "B"]) :: demoData))) ∧
    buildRow "2024-01-01 00:00:00"
        (("consultation_type", FormValue.l ["A", "B"]) :: demoData) =
      [FormValue.s "2024-01-01 00:00:00",
       dataGetD (("consultation_type", FormValue.l ["A", "B"]) :: demoData)
         "consultation_method",
       joinConsultationType (dataGetD
         (("consultation_type", FormValue.l ["A", "B"]) :: demoData)
         "consultation_type"),
       dataGetD (("consultation_type", FormValue.l ["A", "B"]) :: demoData)
         "name",
       dataGetD (("consultation_type", FormValue.l ["A", "B"]) :: demoData)
         "furigana",
       dataGetD (("consultation_type", FormValue.l ["A", "B"]) :: demoData)
         "email",
       dataGetD (("consultation_type", FormValue.l ["A", "B"]) :: demoData)
         "phone",
       dataGetD (("consultation_type", FormValue.l ["A", "B"]) :: demoData)
         "content"] ∧
    (buildRow "2024-01-01 00:00:00"
      (("consultation_type", FormValue.l ["A", "B"]) :: demoData)).length
      = 8 ∧
    (∀ xs, dataGet (("consultation_type", FormValue.l ["A", "B"]) :: demoData)
        "consultation_type" = some (FormValue.l xs) →
      (buildRow "2024-01-01 00:00:00"
        (("consultation_type", FormValue.l ["A", "B"]) :: demoData)).get? 2 =
        some (FormValue.s (String.intercalate ", " xs))) :=
  save_appends_fixed_row demoEnvOk "2024-01-01 00:00:00"
    (("consultation_type", FormValue.l ["A", "B"]) :: demoData) [] demoCreds
    rfl (by decide) (by decide) rfl

/-- C7: on a successful write, the header row is added exactly when the
worksheet's first row is empty, it is placed before the data row, a
worksheet already starting with the header (which is non-empty) gets no
second header, and the data row is the new last row. -/
theorem save_header_iff_first_row_empty (env : SheetsEnv) (ts : String)
    (data : FormData) (rows : List (List FormValue))
    (creds : List (String × String))
    (hA : env.sheetsAvailable = true) (hK : env.sheetKey ≠ "")
    (hC : load_credentials env.fileState = some creds)
    (hR : env.remote = RemoteApi.ok rows) :
    (save_to_google_sheets env ts data).finalRows =
      some ((if (rows.headD []).isEmpty then rows ++ [headerRow] else rows)
        ++ [buildRow ts data]) ∧
    ((rows.headD []).isEmpty = true →
      (save_to_google_sheets env ts data).finalRows =
        some (rows ++ [headerRow, buildRow ts data])) ∧
    ((rows.headD []).isEmpty = false →
      (save_to_google_sheets env ts data).finalRows =
        some (rows ++ [buildRow ts data])) ∧
    headerRow.isEmpty = false ∧
    (∀ final, (save_to_google_sheets env ts data).finalRows = some final →
      final.getLast? = some (buildRow ts data)) := by
  have hbase : (save_to_google_sheets env ts data).finalRows =
      some ((if (rows.headD []).isEmpty then rows ++ [headerRow] else rows)
        ++ [buildRow ts data]) := by
    simp [save_to_google_sheets, hA, hK, hC, hR]
  refine ⟨hbase, ?_, ?_, rfl, ?_⟩
  · intro he
    rw [hbase, he]
    simp
  · intro he
    rw [hbase, he]
    simp
  · intro final hf
    rw [hbase] at hf
    injection hf with hf2
    rw [← hf2]
    exact List.getLast?_concat _

/-- C7 witness: empty worksheet gets header then data row; a worksheet
whose first row is the header gets only the data row. -/
theorem save_header_iff_first_row_empty_witness :
    (save_to_google_sheets demoEnvOk "t" demoData).finalRows =
      some ((if (([] : List (List FormValue)).headD []).isEmpty
             then ([] : List (List FormValue)) ++ [headerRow] else [])
        ++ [buildRow "t" demoData]) ∧
    ((([] : List (List FormValue)).headD []).isEmpty = true →
      (save_to_google_sheets demoEnvOk "t" demoData).finalRows =
        some (([] : List (List FormValue)) ++
          [headerRow, buildRow "t" demoData])) ∧
    ((([] : List (List FormValue)).headD []).isEmpty = false →
      (save_to_google_sheets demoEnvOk "t" demoData).finalRows =
        some (([] : List (List FormValue)) ++ [buildRow "t" demoData])) ∧
    headerRow.isEmpty = false ∧
    (∀ final,
      (save_to_google_sheets demoEnvOk "t" demoData).finalRows = some final →
      final.getLast? = some (buildRow "t" demoData)) :=
  save_header_iff_first_row_empty demoEnvOk "t" demoData [] demoCreds
    rfl (by decide) (by decide) rfl

/-- C8: GET /check-creds answers 404 with an error status when the file is
missing, 500 with an error status when reading or parsing fails, and 200
with the client_email field of the parsed record otherwise. -/
theorem check_credentials_statuses (fs : FileState) :
    (fs = FileState.missing →
      check_credentials fs = ⟨404, "error", none⟩) ∧
    (fs = FileState.badJson →
      check_credentials fs = ⟨500, "error", none⟩) ∧
    (∀ creds, fs = FileState.parsed creds →
      check_credentials fs =
        ⟨200, "success", some (credsGetD creds "client_email" "")⟩) := by
  refine ⟨?_, ?_, ?_⟩
  · intro h; rw [h]; rfl
  · intro h; rw [h]; rfl
  · intro creds h; rw [h]; rfl

/-- C8 witness: the three file states at concrete values. -/
theorem check_credentials_statuses_witness :
    check_credentials FileState.missing = ⟨404, "error", none⟩ ∧
    check_credentials FileState.badJson = ⟨500, "error", none⟩ ∧
    check_credentials (FileState.parsed demoCreds) =
      ⟨200, "success", some (credsGetD demoCreds "client_email" "")⟩ :=
  ⟨(check_credentials_statuses FileState.missing).1 rfl,
   (check_credentials_statuses FileState.badJson).2.1 rfl,
   (check_credentials_statuses (FileState.parsed demoCreds)).2.2 demoCreds rfl⟩

/-- C9: the missing_fields list of a 400 response is exactly the fixed
order name, email, phone, content filtered to the missing fields, hence an
ordered subsequence of that fixed list with no duplicates. -/
theorem submit_missing_fields_ordered (env : SheetsEnv) (ts : String)
    (data : FormData) (h : missingFields data ≠ []) :
    (submit_form env ts data).missing_fields = some (missingFields data) ∧
    missingFields data =
      required_fields.filter (fun f => fieldMissing data f) ∧
    (missingFields data).Sublist required_fields ∧
    (missingFields data).Nodup := by
  have hne : (missingFields data).isEmpty = false := by
    cases hm : missingFields data with
    | nil => exact absurd hm h
    | cons a l => rfl
  refine ⟨?_, rfl, ?_, ?_⟩
  · simp [submit_form, hne, h]
  · exact List.filter_sublist required_fields
  · exact List.Nodup.filter _ (by decide)

/-- C9 witness: a submission missing name and phone. -/
theorem submit_missing_fields_ordered_witness :
    (submit_form demoEnvOff "t"
      [("email", FormValue.s "a@b.com"), ("content", FormValue.s "x"),
       ("phone", FormValue.s "")]).missing_fields =
      some (missingFields
        [("email", FormValue.s "a@b.com"), ("content", FormValue.s "x"),
         ("phone", FormValue.s "")]) ∧
    missingFields
        [("email", FormValue.s "a@b.com"), ("content", FormValue.s "x"),
         ("phone", FormValue.s "")] =
      required_fields.filter (fun f => fieldMissing
        [("email", FormValue.s "a@b.com"), ("content", FormValue.s "x"),
         ("phone", FormValue.s "")] f) ∧
    (missingFields
      [("email", FormValue.s "a@b.com"), ("content", FormValue.s "x"),
       ("phone", FormValue.s "")]).Sublist required_fields ∧
    (missingFields
      [("email", FormValue.s "a@b.com"), ("content", FormValue.s "x"),
       ("phone", FormValue.s "")]).Nodup :=
  submit_missing_fields_ordered demoEnvOff "t"
    [("email", FormValue.s "a@b.com"), ("content", FormValue.s "x"),
     ("phone", FormValue.s "")] (by decide)

/-- C10: the form_data object of a 200 response echoes exactly the keys
name, email and phone, each with the submitted value defaulted to the
empty string; content, furigana and the consultation fields never appear
in it. -/
theorem submit_form_echo (env : SheetsEnv) (ts : String) (data : FormData)
    (h : missingFields data = []) :
    (submit_form env ts data).form_data =
      some [("name", dataGetD data "name"),
            ("email", dataGetD data "email"),
            ("phone", dataGetD data "phone")] ∧
    (∀ fd, (submit_form env ts data).form_data = some fd →
      fd.map Prod.fst = ["name", "email", "phone"] ∧
      "content" ∉ fd.map Prod.fst ∧
      "furigana" ∉ fd.map Prod.fst ∧
      "consultation_method" ∉ fd.map Prod.fst ∧
      "consultation_type" ∉ fd.map Prod.fst) := by
  have hfd : (submit_form env ts data).form_data =
      some [("name", dataGetD data "name"),
            ("email", dataGetD data "email"),
            ("phone", dataGetD data "phone")] := by
    simp [submit_form, h]
  refine ⟨hfd, ?_⟩
  intro fd hfd2
  rw [hfd] at hfd2
  injection hfd2 with hfd3
  rw [← hfd3]
  refine ⟨rfl, ?_, ?_, ?_, ?_⟩ <;> simp

/-- C10 witness at a concrete accepted submission. -/
theorem submit_form_echo_witness :
    (submit_form demoEnvOff "t" demoData).form_data =
      some [("name", dataGetD demoData "name"),
            ("email", dataGetD demoData "email"),
            ("phone", dataGetD demoData "phone")] ∧
    (∀ fd, (submit_form demoEnvOff "t" demoData).form_data = some fd →
      fd.map Prod.fst = ["name", "email", "phone"] ∧
      "content" ∉ fd.map Prod.fst ∧
      "furigana" ∉ fd.map Prod.fst ∧
      "consultation_method" ∉ fd.map Prod.fst ∧
      "consultation_type" ∉ fd.map Prod.fst) :=
  submit_form_echo demoEnvOff "t" demoData (by decide)
